import Mathlib

/-!
Verification of the FAA aircraft-data extraction pipeline
(`faa_assets.py`, `faa_definitions.py`).

The repository is a Dagster pipeline: a static registry `data_sets` of
dataset descriptors, a fetch-and-parse function `extract_aircraft_data`,
an asset factory `build_asset`, and a weekly schedule `faa_schedule`.

Embedding conventions:
- The HTTP layer is modelled as an environment `http : String → HttpResponse`
  mapping a URL to the response obtained by the single `requests.get` call;
  the response body is modelled, post-decompression, as the list of ZIP
  entries (`zipfile.ZipFile(...).namelist()` order) each carrying the
  decompressed text of that member.
- `pandas.read_csv(csv_file, delimiter="\t")` is modelled by `read_csv`
  below; the `parse_dates=[date]` variant by `read_csv_with_dates`.
  Modelled from the spec: "parse that column's values as timestamps — any
  value that cannot be parsed as a timestamp is a hard failure"; the
  concrete accepted timestamp format is ISO `YYYY-MM-DD`, enough to
  distinguish parseable dates from non-date text such as "N/A".
- Fallible Python code (exceptions) is modelled with `Except ExtractError`.
-/

/-- One record of the `data_sets` registry in `faa_assets.py`. The Python
`date` field is either a string or `None`, hence `Option String`. -/
structure DataSet where
  group : String
  name : String
  url : String
  date : Option String
  site : String
deriving DecidableEq, Repr

/-- The static dataset registry `data_sets` of `faa_assets.py`, verbatim. -/
def data_sets : List DataSet := [
  { group := "aircraft", name := "aircraft",
    url := "https://av-info.faa.gov/data/ACRef/tab/aircraft.zip",
    date := some "Last_Change_Date",
    site := "https://av-info.faa.gov/dd_sublevel.asp?Folder=\\ACREF" },
  { group := "aircraft", name := "ata_codes",
    url := "https://av-info.faa.gov/data/ACREF/tab/ata.zip",
    date := some "Last_Change_Date",
    site := "https://av-info.faa.gov/dd_sublevel.asp?Folder=\\ACREF" },
  { group := "aircraft", name := "compt",
    url := "https://av-info.faa.gov/data/ACREF/tab/compt.zip",
    date := some "Last_Change_Date",
    site := "https://av-info.faa.gov/dd_sublevel.asp?Folder=\\ACREF" },
  { group := "aircraft", name := "engine",
    url := "https://av-info.faa.gov/data/ACREF/tab/engine.zip",
    date := some "Last_Change_Date",
    site := "https://av-info.faa.gov/dd_sublevel.asp?Folder=\\ACREF" },
  { group := "aircraft", name := "prop",
    url := "https://av-info.faa.gov/data/ACREF/tab/prop.zip",
    date := some "Last_Change_Date",
    site := "https://av-info.faa.gov/dd_sublevel.asp?Folder=\\ACREF" },
  { group := "reference", name := "aircraft_ref",
    url := "https://av-info.faa.gov/data/REFERENCE/tab/aircraft.zip",
    date := none,
    site := "https://av-info.faa.gov/dd_sublevel.asp?Folder=\\REFERENCE" },
  { group := "reference", name := "acseries",
    url := "https://av-info.faa.gov/data/REFERENCE/tab/acseries.zip",
    date := some "LCHG_DATE",
    site := "https://av-info.faa.gov/dd_sublevel.asp?Folder=\\REFERENCE" },
  { group := "reference", name := "airmanuf",
    url := "https://av-info.faa.gov/data/REFERENCE/tab/airmanuf.zip",
    date := some "LCHG_DATE",
    site := "https://av-info.faa.gov/dd_sublevel.asp?Folder=\\REFERENCE" },
  { group := "reference", name := "airport",
    url := "https://av-info.faa.gov/data/REFERENCE/tab/airport.zip",
    date := some "LCHG_DATE",
    site := "https://av-info.faa.gov/dd_sublevel.asp?Folder=\\REFERENCE" },
  { group := "reference", name := "country",
    url := "https://av-info.faa.gov/data/REFERENCE/tab/country.zip",
    date := some "LCHG_DATE",
    site := "https://av-info.faa.gov/dd_sublevel.asp?Folder=\\REFERENCE" },
  { group := "reference", name := "distoffc",
    url := "https://av-info.faa.gov/data/REFERENCE/tab/distoffc.zip",
    date := some "LCHG_DATE",
    site := "https://av-info.faa.gov/dd_sublevel.asp?Folder=\\REFERENCE" },
  { group := "reference", name := "makemodl",
    url := "https://av-info.faa.gov/data/REFERENCE/tab/makemodl.zip",
    date := some "LCHG_DATE",
    site := "https://av-info.faa.gov/dd_sublevel.asp?Folder=\\REFERENCE" },
  { group := "reference", name := "simulatr",
    url := "https://av-info.faa.gov/data/REFERENCE/tab/simulatr.zip",
    date := some "LCHG_DATE",
    site := "https://av-info.faa.gov/dd_sublevel.asp?Folder=\\REFERENCE" },
  { group := "reference", name := "state",
    url := "https://av-info.faa.gov/data/REFERENCE/tab/state.zip",
    date := some "LCHG_DATE",
    site := "https://av-info.faa.gov/dd_sublevel.asp?Folder=\\REFERENCE" }
]

/-- A calendar timestamp, the result of a successful date parse. -/
structure Date where
  year : Nat
  month : Nat
  day : Nat
deriving DecidableEq, Repr

/-- A cell of a tabular result: either raw text or a parsed timestamp. -/
inductive Value where
  | str (s : String)
  | timestamp (d : Date)
deriving DecidableEq, Repr

/-- The tabular result of `pd.read_csv`: named columns plus rows of cells. -/
structure DataFrame where
  columns : List String
  rows : List (List Value)
deriving DecidableEq, Repr

/-- Split a character list at every occurrence of `c` (like Python
`str.split(c)`): structural so that the kernel can evaluate it. -/
def splitOnChar (c : Char) : List Char → List (List Char)
  | [] => [[]]
  | x :: xs =>
    let r := splitOnChar c xs
    if x = c then [] :: r
    else
      match r with
      | [] => [[x]]
      | y :: ys => (x :: y) :: ys

/-- The tab-separated fields of one line of the data file. -/
def fieldsOf (line : List Char) : List String :=
  (splitOnChar '\t' line).map (fun cs => String.mk cs)

/-- The non-blank lines of the decompressed file, as pandas's default
`skip_blank_lines=True` reading sees them. -/
def csvLines (content : String) : List (List Char) :=
  (splitOnChar '\n' content.data).filter (fun l => l ≠ [])

/-- Parse a decimal digit. -/
def digitVal (c : Char) : Option Nat :=
  if c.isDigit then some (c.toNat - 48) else none

/-- Accumulate decimal digits into a natural number, failing on the
first non-digit character. -/
def parseNatGo : List Char → Nat → Option Nat
  | [], acc => some acc
  | c :: cs, acc =>
    match digitVal c with
    | none => none
    | some d => parseNatGo cs (10 * acc + d)

/-- Parse a non-empty all-digit character list as a natural number. -/
def parseNatL : List Char → Option Nat
  | [] => none
  | cs => parseNatGo cs 0

/-- Modelled from the spec: the timestamp parser behind pandas
`parse_dates` — "parse that column's values as timestamps — any value
that cannot be parsed as a timestamp is a hard failure". Accepts ISO
`YYYY-MM-DD`; anything else (e.g. "N/A") fails to parse. -/
def parseTimestamp (s : String) : Option Date :=
  match (splitOnChar '-' s.data).map parseNatL with
  | [some y, some m, some d] =>
    if 1 ≤ m ∧ m ≤ 12 ∧ 1 ≤ d ∧ d ≤ 31 then some ⟨y, m, d⟩ else none
  | _ => none

/-- The ways a run of `extract_aircraft_data` can fail, each matching the
Python exception raised at the corresponding program point. -/
inductive ExtractError where
  /-- Non-200 status: the `if` body is skipped and `return df` raises
  `UnboundLocalError` — the call fails with no result. -/
  | unboundLocalDf
  /-- Accessing `zip_ref.namelist()[0]` on an empty archive raises
  `IndexError`. -/
  | indexError
  /-- Reading a file with no data raises pandas `EmptyDataError`. -/
  | emptyData
  /-- The `parse_dates` column is absent from the header (`ValueError`). -/
  | missingDateColumn
  /-- A value in the designated date column cannot be parsed as a
  timestamp: per the spec this is a hard failure. -/
  | dateParseFailure
deriving DecidableEq, Repr

/-- Model of `pd.read_csv(csv_file, delimiter="\t")`: first line is the header,
remaining lines are rows of raw cells, no timestamp conversion. -/
def read_csv (content : String) : Except ExtractError DataFrame :=
  match csvLines content with
  | [] => .error .emptyData
  | header :: rest =>
    .ok ⟨fieldsOf header, rest.map (fun l => (fieldsOf l).map Value.str)⟩

/-- Parse the cell at index `j` of a row as a timestamp, failing if it is
missing or unparseable; on success the cell is replaced by the parsed
timestamp. -/
def parseDateCell (j : Nat) (fields : List String) : Option (List Value) :=
  match fields.get? j with
  | none => none
  | some s =>
    match parseTimestamp s with
    | none => none
    | some t => some ((fields.map Value.str).set j (Value.timestamp t))

/-- Parse every data line, converting the date column at index `j`; the
first unparseable date value fails the whole read. -/
def parseRows (j : Nat) : List (List Char) → Option (List (List Value))
  | [] => some []
  | l :: ls =>
    match parseDateCell j (fieldsOf l), parseRows j ls with
    | some row, some rows => some (row :: rows)
    | _, _ => none

/-- Model of `pd.read_csv(csv_file, delimiter="\t", parse_dates=[date])`: as
`read_csv`, but the column named `date` must exist and every one of its
values must parse as a timestamp, else the call fails. -/
def read_csv_with_dates (content : String) (date : String) :
    Except ExtractError DataFrame :=
  match csvLines content with
  | [] => .error .emptyData
  | header :: rest =>
    match (fieldsOf header).findIdx? (fun c => c = date) with
    | none => .error .missingDateColumn
    | some j =>
      match parseRows j rest with
      | none => .error .dateParseFailure
      | some rows => .ok ⟨fieldsOf header, rows⟩

/-- One member of the downloaded ZIP archive, in `namelist()` order,
carrying its decompressed text. -/
structure ZipEntry where
  filename : String
  content : String
deriving DecidableEq, Repr

/-- The result of the single `requests.get(url, timeout=15)` call: the
HTTP status code and the response body viewed as the ZIP archive's entry
list. -/
structure HttpResponse where
  status_code : Nat
  content : List ZipEntry
deriving DecidableEq, Repr

/-- Python truthiness of the `date` argument: `if date:` is false exactly
for `None` and for the empty string. -/
def truthy : Option String → Bool
  | none => false
  | some s => s ≠ ""

/-- The function `extract_aircraft_data(date, url)` from `faa_assets.py`: one GET, a
200-status check, first ZIP entry, tab-delimited parse with optional
date-column timestamp parsing. -/
def extract_aircraft_data (date : Option String) (url : String)
    (http : String → HttpResponse) : Except ExtractError DataFrame :=
  let response := http url
  if response.status_code = 200 then
    match response.content with
    | [] => .error .indexError
    | entry :: _ =>
      if truthy date then
        read_csv_with_dates entry.content (date.getD "")
      else
        read_csv entry.content
  else
    .error .unboundLocalDf

/-- Model of `df.head()`: the first 5 rows (the pandas default). -/
def DataFrame.head (df : DataFrame) : DataFrame :=
  ⟨df.columns, df.rows.take 5⟩

/-- Render one cell as text for the markdown preview. -/
def Value.render : Value → String
  | .str s => s
  | .timestamp d =>
    Nat.repr d.year ++ "-" ++ Nat.repr d.month ++ "-" ++ Nat.repr d.day

/-- Modelled from the spec: `df.to_markdown(index=False)` — "a markdown
table preview of the first rows": a header row, a separator row, and one
pipe-delimited line per data row. -/
def to_markdown (df : DataFrame) : String :=
  let line (cells : List String) := "| " ++ String.intercalate " | " cells ++ " |"
  String.intercalate "\n"
    (line df.columns ::
     line (df.columns.map (fun _ => "---")) ::
     df.rows.map (fun r => line (r.map Value.render)))

/-- The `Output(value=..., metadata=...)` a unit publishes: the tabular
result plus the two markdown metadata entries. -/
structure AssetOutput where
  value : DataFrame
  website : String
  preview : String
deriving DecidableEq, Repr

/-- A Dagster software-defined asset as produced by the `@asset`
decorator inside `build_asset`: its registration parameters plus the
computation the decorated function performs when the unit runs. -/
structure Asset where
  name : String
  group_name : String
  compute_kind : String
  io_manager_key : String
  key_prefix : String
  compute : (String → HttpResponse) → Except ExtractError AssetOutput

/-- The storage key of the published artifact: Dagster's asset key
`[key_prefix, name]`, i.e. the duckdb `(schema, table)` pair. -/
def Asset.key (a : Asset) : String × String :=
  (Asset.key_prefix a, a.name)

/-- The factory `build_asset(data_set)` from `faa_assets.py`, producing
one schedulable unit from one descriptor. -/
def build_asset (data_set : DataSet) : Asset :=
  { name := data_set.name
    group_name := data_set.group
    compute_kind := "duckdb"
    io_manager_key := "faa_io_manager"
    key_prefix := data_set.group
    compute := fun http =>
      match extract_aircraft_data data_set.date data_set.url http with
      | .error e => .error e
      | .ok df =>
        .ok { value := df
              website := "This data was obtained from this [website]("
                           ++ data_set.site ++ ")."
              preview := to_markdown df.head } }

/-- The list `faa_assets` from `faa_definitions.py`: the factory applied to every
descriptor of the registry. -/
def faa_assets : List Asset :=
  data_sets.map (fun data_set => build_asset data_set)

/-- Model of `define_asset_job(...)`: one logical job
over a selection of assets. -/
structure AssetJob where
  name : String
  selection : List Asset

/-- The job `faa_job` from `faa_definitions.py`. -/
def faa_job : AssetJob :=
  { name := "faa_job", selection := faa_assets }

/-- Model of `ScheduleDefinition(job=..., cron_schedule=...)`: one job bound to
one recurring cron-style trigger. -/
structure ScheduleDefinition where
  job : AssetJob
  cron_schedule : String

/-- The schedule `faa_schedule` from `faa_definitions.py`. -/
def faa_schedule : ScheduleDefinition :=
  { job := faa_job, cron_schedule := "0 17 * * MON" }

/-- A candidate firing time for a cron trigger: minute, hour,
day-of-month, month, day-of-week (0 = Sunday). -/
structure CronTime where
  minute : Nat
  hour : Nat
  dom : Nat
  month : Nat
  dow : Nat
deriving DecidableEq, Repr

/-- The day-of-week name aliases of the cron day-of-week field. -/
def dowNames : List (String × Nat) :=
  [("SUN", 0), ("MON", 1), ("TUE", 2), ("WED", 3),
   ("THU", 4), ("FRI", 5), ("SAT", 6)]

/-- Modelled from the spec: one field of a cron expression matches a
value when it is the wildcard `*`, the value written in decimal, or (for
the day-of-week field) a name alias of the value. -/
def fieldMatches (f : String) (v : Nat) (names : List (String × Nat)) : Bool :=
  decide (f = "*" ∨ parseNatL f.data = some v ∨ names.lookup f = some v)

/-- Modelled from the spec: a five-field cron-style expression ("one
cron-style expression (weekly, Monday 17:00) driving execution") fires at
a time exactly when every field matches the corresponding component. -/
def cronFires (expr : String) (t : CronTime) : Bool :=
  match (splitOnChar ' ' expr.data).map (fun cs => String.mk cs) with
  | [mi, h, dom, mon, dow] =>
    fieldMatches mi t.minute [] && fieldMatches h t.hour [] &&
    fieldMatches dom t.dom [] && fieldMatches mon t.month [] &&
    fieldMatches dow t.dow dowNames
  | _ => false

/-- The header fields of a data file: the tab-separated fields of its
first non-blank line. -/
def headerFields (content : String) : List String :=
  match csvLines content with
  | [] => []
  | h :: _ => fieldsOf h

/-- A test environment: every URL serves status 200 with an empty ZIP
archive. -/
def emptyArchiveEnv : String → HttpResponse :=
  fun _ => ⟨200, []⟩

/-- A test environment: every URL serves status 404. -/
def notFoundEnv : String → HttpResponse :=
  fun _ => ⟨404, []⟩

/-- A test environment: a one-entry archive whose date column holds the
non-date value "N/A". -/
def naEnv : String → HttpResponse :=
  fun _ => ⟨200, [⟨"aircraft.tab", "TC_DATA_SHEET\tLast_Change_Date\nfoo\tN/A"⟩]⟩

/-- A test environment: a one-entry archive with a well-formed date
column. -/
def goodEnv : String → HttpResponse :=
  fun _ =>
    ⟨200, [⟨"aircraft.tab", "TC_DATA_SHEET\tLast_Change_Date\nfoo\t2020-01-02"⟩]⟩

/-- A 100-data-row tab-delimited file with a parseable date column. -/
def content100 : String :=
  "TC_DATA_SHEET\tLast_Change_Date\n" ++
    String.intercalate "\n" (List.replicate 100 "foo\t2020-01-02")

/-- A test environment serving a one-entry archive holding `content100`. -/
def env100 : String → HttpResponse :=
  fun _ => ⟨200, [⟨"aircraft.tab", content100⟩]⟩

/-- A concrete descriptor used to exercise the factory. -/
def wDataSet : DataSet :=
  { group := "aircraft", name := "aircraft",
    url := "https://av-info.faa.gov/data/ACRef/tab/aircraft.zip",
    date := some "Last_Change_Date",
    site := "https://av-info.faa.gov/dd_sublevel.asp?Folder=\\ACREF" }

/-- The output the `wDataSet` unit publishes against `env100`. -/
def out100 : AssetOutput :=
  match (build_asset wDataSet).compute env100 with
  | .ok o => o
  | .error _ => ⟨⟨[], []⟩, "", ""⟩

/-- Unfolding lemma for `extract_aircraft_data`, exposing the status
check, the first-entry selection and the parse-branch choice. -/
theorem extract_eq (date : Option String) (url : String)
    (http : String → HttpResponse) :
    extract_aircraft_data date url http =
      if (http url).status_code = 200 then
        match (http url).content with
        | [] => .error .indexError
        | entry :: _ =>
          if truthy date then read_csv_with_dates entry.content (date.getD "")
          else read_csv entry.content
      else .error .unboundLocalDf := rfl

/-- A successful `parseDateCell` leaves a parsed timestamp at index `j`. -/
theorem parseDateCell_get {j : Nat} {fields : List String} {row : List Value}
    (h : parseDateCell j fields = some row) :
    ∃ t, row[j]? = some (Value.timestamp t) := by
  unfold parseDateCell at h
  split at h
  · exact absurd h (by simp)
  case h_2 s hs =>
    split at h
    · exact absurd h (by simp)
    case h_2 t ht =>
      injection h with h
      subst h
      have hj : j < (fields.map Value.str).length := by
        rw [List.length_map]
        rcases List.get?_eq_some.mp hs with ⟨hlt, _⟩
        exact hlt
      exact ⟨t, List.getElem?_set_self hj⟩

/-- Every row produced by `parseRows` carries a parsed timestamp at the
date-column index. -/
theorem parseRows_get {j : Nat} :
    ∀ {ls : List (List Char)} {rows : List (List Value)},
      parseRows j ls = some rows →
      ∀ row ∈ rows, ∃ t, row[j]? = some (Value.timestamp t) := by
  intro ls
  induction ls with
  | nil =>
    intro rows h row hrow
    injection h with h
    subst h
    simp at hrow
  | cons l ls ih =>
    intro rows h row hrow
    unfold parseRows at h
    split at h
    case h_1 r rs hr hrs =>
      injection h with h
      subst h
      rcases List.mem_cons.mp hrow with rfl | hm
      · exact parseDateCell_get hr
      · exact ih hrs row hm
    · exact absurd h (by simp)

/-- A successful `read_csv_with_dates` locates the date column in its
header and fills it with parsed timestamps in every row. -/
theorem read_csv_with_dates_ok {content date : String} {df : DataFrame}
    (h : read_csv_with_dates content date = .ok df) :
    ∃ j, df.columns.findIdx? (fun c => c = date) = some j ∧
      ∀ row ∈ df.rows, ∃ t, row[j]? = some (Value.timestamp t) := by
  unfold read_csv_with_dates at h
  split at h
  · exact absurd h (by simp)
  case h_2 header rest heq =>
    split at h
    · exact absurd h (by simp)
    case h_2 j hj =>
      split at h
      · exact absurd h (by simp)
      case h_2 rows hrows =>
        injection h with h
        subst h
        exact ⟨j, hj, fun row hrow => parseRows_get hrows row hrow⟩

/-- A successful `read_csv` returns exactly the header fields as columns
and only raw string cells. -/
theorem read_csv_ok {content : String} {df : DataFrame}
    (h : read_csv content = .ok df) :
    df.columns = headerFields content ∧
    ∀ row ∈ df.rows, ∀ v ∈ row, ∃ s, v = Value.str s := by
  unfold read_csv at h
  split at h
  · exact absurd h (by simp)
  case h_2 header rest heq =>
    injection h with h
    subst h
    refine ⟨by simp [headerFields, heq], ?_⟩
    intro row hrow v hv
    rcases List.mem_map.mp hrow with ⟨l, _, rfl⟩
    rcases List.mem_map.mp hv with ⟨s, _, rfl⟩
    exact ⟨s, rfl⟩

/-- C1: given a (truthy) date-column name, every value of that column in
a returned tabular result is a parsed timestamp; and a file whose date
column holds the non-date value "N/A" (`naEnv`) makes the call fail with
a date-parse error rather than coercing the value. -/
theorem extract_date_column_all_timestamps (dc url : String)
    (http : String → HttpResponse) (df : DataFrame)
    (hdc : truthy (some dc) = true)
    (h : extract_aircraft_data (some dc) url http = .ok df) :
    (∃ j, df.columns.findIdx? (fun c => c = dc) = some j ∧
      ∀ row ∈ df.rows, ∃ t, row[j]? = some (Value.timestamp t)) ∧
    extract_aircraft_data (some "Last_Change_Date") url naEnv
      = .error .dateParseFailure := by
  refine ⟨?_, rfl⟩
  rw [extract_eq] at h
  split at h
  · split at h
    · exact absurd h (by simp)
    · exact read_csv_with_dates_ok h
  · exact absurd h (by simp)

/-- Witness for C1 at a concrete well-formed input. -/
theorem extract_date_column_all_timestamps_witness :
    truthy (some "Last_Change_Date") = true ∧
    extract_aircraft_data (some "Last_Change_Date") "u" goodEnv
      = .ok ⟨["TC_DATA_SHEET", "Last_Change_Date"],
             [[Value.str "foo", Value.timestamp ⟨2020, 1, 2⟩]]⟩ ∧
    ((∃ j, (["TC_DATA_SHEET", "Last_Change_Date"] : List String).findIdx?
          (fun c => c = "Last_Change_Date") = some j ∧
        ∀ row ∈ [[Value.str "foo", Value.timestamp (⟨2020, 1, 2⟩ : Date)]],
          ∃ t, row[j]? = some (Value.timestamp t)) ∧
      extract_aircraft_data (some "Last_Change_Date") "u" naEnv
        = .error .dateParseFailure) :=
  ⟨rfl, rfl,
   extract_date_column_all_timestamps "Last_Change_Date" "u" goodEnv
     ⟨["TC_DATA_SHEET", "Last_Change_Date"],
      [[Value.str "foo", Value.timestamp ⟨2020, 1, 2⟩]]⟩ rfl rfl⟩

/-- C2: a non-200 response makes the run fail (the Python `return df`
raises `UnboundLocalError`) with no tabular result, partial or
otherwise; and the result depends only on the single response obtained
for the URL — no retry is performed. -/
theorem extract_non200_hard_failure (date : Option String) (url : String)
    (http : String → HttpResponse) (h : (http url).status_code ≠ 200) :
    extract_aircraft_data date url http = .error .unboundLocalDf ∧
    (∀ df, extract_aircraft_data date url http ≠ .ok df) ∧
    (∀ http2 : String → HttpResponse, http2 url = http url →
      extract_aircraft_data date url http2 = extract_aircraft_data date url http) := by
  refine ⟨?_, ?_, ?_⟩
  · rw [extract_eq, if_neg h]
  · intro df hdf
    rw [extract_eq, if_neg h] at hdf
    exact Except.noConfusion hdf
  · intro http2 h2
    rw [extract_eq, extract_eq, h2]

/-- Witness for C2 at a concrete 404 response. -/
theorem extract_non200_hard_failure_witness :
    (notFoundEnv "u").status_code ≠ 200 ∧
    (extract_aircraft_data none "u" notFoundEnv = .error .unboundLocalDf ∧
     (∀ df, extract_aircraft_data none "u" notFoundEnv ≠ .ok df) ∧
     (∀ http2 : String → HttpResponse, http2 "u" = notFoundEnv "u" →
       extract_aircraft_data none "u" http2
         = extract_aircraft_data none "u" notFoundEnv)) :=
  ⟨by decide, extract_non200_hard_failure none "u" notFoundEnv (by decide)⟩

/-- C3: only the first entry of the archive is parsed — appending further
entries leaves the result unchanged, and the result is exactly the parse
of the first entry's contents. -/
theorem extract_first_entry_only (date : Option String) (url : String)
    (e : ZipEntry) (rest : List ZipEntry) :
    extract_aircraft_data date url (fun _ => ⟨200, e :: rest⟩)
      = extract_aircraft_data date url (fun _ => ⟨200, [e]⟩) ∧
    extract_aircraft_data date url (fun _ => ⟨200, e :: rest⟩)
      = (if truthy date then read_csv_with_dates e.content (date.getD "")
         else read_csv e.content) :=
  ⟨rfl, rfl⟩

/-- C4: the `(group, name)` pairs of the registry's descriptors are
pairwise distinct — `name` is unique within each `group`. -/
theorem data_sets_group_name_unique :
    (data_sets.map (fun d => (d.group, d.name))).Nodup := by decide

/-- C5: with no date column, a successful call returns exactly the
file's header fields as columns, in content and order, and every cell is
a raw string — no timestamp conversion. -/
theorem extract_no_date_header_exact (url : String) (e : ZipEntry)
    (rest : List ZipEntry) (df : DataFrame)
    (h : extract_aircraft_data none url (fun _ => ⟨200, e :: rest⟩) = .ok df) :
    df.columns = headerFields e.content ∧
    ∀ row ∈ df.rows, ∀ v ∈ row, ∃ s, v = Value.str s := by
  have h2 : read_csv e.content = .ok df := h
  exact read_csv_ok h2

/-- Witness for C5 at a concrete two-column file. -/
theorem extract_no_date_header_exact_witness :
    (extract_aircraft_data none "u"
        (fun _ => ⟨200, [⟨"f.tab", "A\tB\nx\ty"⟩]⟩)
      = .ok ⟨["A", "B"], [[Value.str "x", Value.str "y"]]⟩) ∧
    ((⟨["A", "B"], [[Value.str "x", Value.str "y"]]⟩ : DataFrame).columns
        = headerFields "A\tB\nx\ty" ∧
     ∀ row ∈ (⟨["A", "B"], [[Value.str "x", Value.str "y"]]⟩ : DataFrame).rows,
       ∀ v ∈ row, ∃ s, v = Value.str s) :=
  ⟨rfl, extract_no_date_header_exact "u" ⟨"f.tab", "A\tB\nx\ty"⟩ []
    ⟨["A", "B"], [[Value.str "x", Value.str "y"]]⟩ rfl⟩

/-- C9: a 200 response whose archive has no entries fails with the
`IndexError` of the first-entry lookup and never yields a result. -/
theorem extract_empty_archive_index_error (date : Option String) (url : String)
    (http : String → HttpResponse)
    (hs : (http url).status_code = 200) (hc : (http url).content = []) :
    extract_aircraft_data date url http = .error .indexError ∧
    ∀ df, extract_aircraft_data date url http ≠ .ok df := by
  have he : extract_aircraft_data date url http = .error .indexError := by
    rw [extract_eq, if_pos hs, hc]
  exact ⟨he, fun df hdf => by
    rw [he] at hdf
    exact Except.noConfusion hdf⟩

/-- Witness for C9 at a concrete empty archive. -/
theorem extract_empty_archive_index_error_witness :
    (emptyArchiveEnv "u").status_code = 200 ∧
    (emptyArchiveEnv "u").content = [] ∧
    (extract_aircraft_data none "u" emptyArchiveEnv = .error .indexError ∧
     ∀ df, extract_aircraft_data none "u" emptyArchiveEnv ≠ .ok df) :=
  ⟨rfl, rfl, extract_empty_archive_index_error none "u" emptyArchiveEnv rfl rfl⟩

/-- C10: the branch on the date argument is Python truthiness, so an
empty-string date column behaves exactly like `None`. -/
theorem extract_empty_date_as_none (url : String) (http : String → HttpResponse) :
    extract_aircraft_data (some "") url http
      = extract_aircraft_data none url http := rfl

/-- C6: a successful unit run publishes metadata whose website entry is
a markdown link targeting the descriptor's documentation URL, and whose
preview is the markdown table of only the first 5 rows of the result. -/
theorem build_asset_publishes_metadata (data_set : DataSet)
    (http : String → HttpResponse) (out : AssetOutput)
    (h : (build_asset data_set).compute http = .ok out) :
    out.website = "This data was obtained from this [website]("
                    ++ data_set.site ++ ")." ∧
    ("(" ++ data_set.site ++ ")").data <:+: out.website.data ∧
    out.preview = to_markdown out.value.head ∧
    out.value.head.rows = out.value.rows.take 5 ∧
    out.value.head.rows.length = min 5 out.value.rows.length := by
  unfold build_asset at h
  dsimp only at h
  split at h
  · exact absurd h (by simp)
  case h_2 df hdf =>
    injection h with h
    subst h
    refine ⟨rfl, ?_, rfl, rfl, ?_⟩
    · exact ⟨"This data was obtained from this [website]".data, ".".data, by
        simp only [String.data_append, List.append_assoc]
        rfl⟩
    · simp [DataFrame.head, List.length_take]

section
set_option maxRecDepth 80000

/-- Witness for C6 at a concrete 100-row input: the preview covers
exactly the first 5 of the 100 rows. -/
theorem build_asset_publishes_metadata_witness :
    ((build_asset wDataSet).compute env100 = .ok out100) ∧
    out100.value.rows.length = 100 ∧
    out100.value.head.rows.length = 5 ∧
    (out100.website = "This data was obtained from this [website]("
        ++ wDataSet.site ++ ")." ∧
     ("(" ++ wDataSet.site ++ ")").data <:+: out100.website.data ∧
     out100.preview = to_markdown out100.value.head ∧
     out100.value.head.rows = out100.value.rows.take 5 ∧
     out100.value.head.rows.length = min 5 out100.value.rows.length) :=
  ⟨rfl, by decide, by decide,
   build_asset_publishes_metadata wDataSet env100 out100 rfl⟩

end

/-- C7: the factory is applied uniformly — `faa_assets` has exactly one
unit per descriptor, the unit at each index is the factory's output on
the descriptor at the same index, and its artifact key is that
descriptor's `(group, name)` pair. -/
theorem faa_assets_uniform_factory :
    faa_assets.length = data_sets.length ∧
    (∀ i : Nat, faa_assets[i]? = (data_sets[i]?).map build_asset) ∧
    (∀ i : Nat, (faa_assets[i]?).map Asset.key
        = (data_sets[i]?).map (fun d => (d.group, d.name))) := by
  refine ⟨by simp [faa_assets], fun i => ?_, fun i => ?_⟩
  · simp [faa_assets, List.getElem?_map]
  · rw [show faa_assets = data_sets.map (fun d => build_asset d) from rfl,
      List.getElem?_map]
    cases data_sets[i]? with
    | none => rfl
    | some d => rfl

/-- The wildcard cron field matches every value. -/
theorem fieldMatches_star (v : Nat) (names : List (String × Nat)) :
    fieldMatches "*" v names = true := by
  unfold fieldMatches
  simp only [decide_eq_true_eq]
  exact Or.inl trivial

/-- The cron field "0" matches exactly the value 0. -/
theorem fieldMatches_zero (v : Nat) :
    fieldMatches "0" v [] = true ↔ v = 0 := by
  unfold fieldMatches
  simp only [decide_eq_true_eq]
  rw [show parseNatL "0".data = some 0 from rfl]
  constructor
  · rintro (h | h | h)
    · exact absurd h (by decide)
    · exact (Option.some.inj h).symm
    · exact absurd h (by simp)
  · rintro rfl
    exact Or.inr (Or.inl rfl)

/-- The cron field "17" matches exactly the value 17. -/
theorem fieldMatches_seventeen (v : Nat) :
    fieldMatches "17" v [] = true ↔ v = 17 := by
  unfold fieldMatches
  simp only [decide_eq_true_eq]
  rw [show parseNatL "17".data = some 17 from rfl]
  constructor
  · rintro (h | h | h)
    · exact absurd h (by decide)
    · exact (Option.some.inj h).symm
    · exact absurd h (by simp)
  · rintro rfl
    exact Or.inr (Or.inl rfl)

/-- The cron day-of-week field "MON" matches exactly Monday (1). -/
theorem fieldMatches_mon (v : Nat) :
    fieldMatches "MON" v dowNames = true ↔ v = 1 := by
  unfold fieldMatches
  simp only [decide_eq_true_eq]
  rw [show parseNatL "MON".data = (none : Option Nat) from rfl,
    show dowNames.lookup "MON" = some 1 from rfl]
  constructor
  · rintro (h | h | h)
    · exact absurd h (by decide)
    · exact absurd h (by simp)
    · exact (Option.some.inj h).symm
  · rintro rfl
    exact Or.inr (Or.inr rfl)

/-- C8: the full set of units is one logical job (`faa_job`, selecting
all of `faa_assets`) bound to the single cron trigger "0 17 * * MON",
which fires exactly at minute 0, hour 17, on Mondays — weekly. -/
theorem faa_schedule_one_job_weekly_monday_1700 :
    faa_schedule.job = faa_job ∧
    faa_job.selection = faa_assets ∧
    faa_schedule.cron_schedule = "0 17 * * MON" ∧
    ∀ t : CronTime, (cronFires faa_schedule.cron_schedule t = true ↔
      (t.minute = 0 ∧ t.hour = 17 ∧ t.dow = 1)) := by
  refine ⟨rfl, rfl, rfl, fun t => ?_⟩
  show (fieldMatches "0" t.minute [] && fieldMatches "17" t.hour [] &&
        fieldMatches "*" t.dom [] && fieldMatches "*" t.month [] &&
        fieldMatches "MON" t.dow dowNames) = true ↔ _
  simp only [Bool.and_eq_true, fieldMatches_star, fieldMatches_zero,
    fieldMatches_seventeen, fieldMatches_mon, and_true]
  tauto
